import Mathlib

/-!
Verification of the Python agent base class (`examples/python-agent/src/agent.py`).

The development shallowly embeds the agent's data model and operations:

* `PyVal` — the universe of Python values the agent manipulates (JSON values
  plus opaque, non-serializable objects).
* `dumpsVal` / `loads` — models of `json.dumps` / `json.loads` restricted to
  that universe (floats are outside the modelled universe; `dumps` uses the
  default separators `", "` and `": "`, `ensure_ascii=True`).
* `camel_to_kebab` — the `_camel_to_kebab` helper (two `re.sub` passes, then
  `.lower()`), embedded with Python's left-to-right, non-overlapping,
  greedy match semantics for the two concrete patterns used.
* `Agent` and its operations (`state`, `set_state_internal`, `fetch_ws`,
  `fetch_http`, `webSocketMessage`, `handle_rpc`) — the Durable Object agent,
  with the SQLite table modelled as a map from row id to serialized text, the
  registered WebSockets as a list of connection ids in registration order, and
  each connection's send outcome given by an environment `SendEnv`.
-/

/-- The universe of Python values handled by the agent: JSON-representable
values plus opaque non-JSON-serializable objects (`obj tag`, where `tag` is
the type name Python would report, e.g. `"set"`). Floats are not modelled. -/
inductive PyVal where
  | none
  | bool (b : Bool)
  | int (n : Int)
  | str (s : String)
  | list (xs : List PyVal)
  | dict (kvs : List (String × PyVal))
  | obj (tag : String)

/-- ASCII uppercase letter (the regex class `[A-Z]`). -/
def isUpperAZ (c : Char) : Bool := 'A' ≤ c ∧ c ≤ 'Z'

/-- ASCII lowercase letter (the regex class `[a-z]`). -/
def isLowerAZ (c : Char) : Bool := 'a' ≤ c ∧ c ≤ 'z'

/-- ASCII digit (the regex class `[0-9]`). -/
def isDigitC (c : Char) : Bool := '0' ≤ c ∧ c ≤ '9'

/-- The regex class `[a-z0-9]`. -/
def isLowerDigit (c : Char) : Bool := isLowerAZ c || isDigitC c

/-- First pass of `_camel_to_kebab`:
`re.sub(r"(.)([A-Z][a-z]+)", r"\1-\2", name)` — scan left to right for a
non-overlapping match of any character (not a newline) followed by an
uppercase letter and a greedy nonempty run of lowercase letters; insert a
hyphen between the two groups and resume after the match. The fuel argument
only bounds the recursion (each step consumes at least one character), so
`sub1` below, called with more fuel than characters, is the total scan. -/
def sub1Go : Nat → List Char → List Char
  | 0, cs => cs
  | _ + 1, [] => []
  | fuel + 1, c :: rest =>
    match rest with
    | u :: l :: rest2 =>
      if ¬ c = '\n' ∧ isUpperAZ u ∧ isLowerAZ l then
        c :: '-' :: u :: l :: (rest2.takeWhile isLowerAZ ++ sub1Go fuel (rest2.dropWhile isLowerAZ))
      else c :: sub1Go fuel rest
    | _ => c :: sub1Go fuel rest

/-- The first substitution pass, with enough fuel for the whole input. -/
def sub1 (cs : List Char) : List Char := sub1Go (cs.length + 1) cs

/-- Second pass of `_camel_to_kebab`:
`re.sub(r"([a-z0-9])([A-Z])", r"\1-\2", s1)` — scan left to right for a
lowercase letter or digit immediately followed by an uppercase letter;
insert a hyphen and resume after the two matched characters. -/
def sub2Go : Nat → List Char → List Char
  | 0, cs => cs
  | _ + 1, [] => []
  | fuel + 1, c :: rest =>
    match rest with
    | u :: rest2 =>
      if isLowerDigit c ∧ isUpperAZ u then c :: '-' :: u :: sub2Go fuel rest2
      else c :: sub2Go fuel rest
    | [] => [c]

/-- The second substitution pass, with enough fuel for the whole input. -/
def sub2 (cs : List Char) : List Char := sub2Go (cs.length + 1) cs

/-- Model of `str.lower()` restricted to ASCII (class names are ASCII). -/
def pyLowerChar (c : Char) : Char :=
  if isUpperAZ c then Char.ofNat (c.toNat + 32) else c

/-- Model of `_camel_to_kebab(name)`: the two substitutions followed by `.lower()`. -/
def camel_to_kebab (name : String) : String :=
  ⟨(sub2 (sub1 name.data)).map pyLowerChar⟩

/-- Constant `STATE_ROW_ID` (agent.py line 27). -/
def STATE_ROW_ID : String := "cf_state_row_id"

/-- Constant `STATE_WAS_CHANGED` (agent.py line 28). -/
def STATE_WAS_CHANGED : String := "cf_state_was_changed"

/-- The `CF_AGENT_STATE` wire message type. -/
def CF_AGENT_STATE : String := "cf_agent_state"

/-- The `CF_AGENT_STATE_ERROR` wire message type. -/
def CF_AGENT_STATE_ERROR : String := "cf_agent_state_error"

/-- The `CF_AGENT_IDENTITY` wire message type. -/
def CF_AGENT_IDENTITY : String := "cf_agent_identity"

/-- The `RPC` wire message type. -/
def RPC : String := "rpc"

/-- Lowercase hex digit. -/
def hexDigit (n : Nat) : Char :=
  if n < 10 then Char.ofNat (48 + n) else Char.ofNat (87 + n)

/-- Four lowercase hex digits, as in Python's `\uXXXX` escapes. -/
def hex4 (n : Nat) : String :=
  ⟨[hexDigit (n / 4096 % 16), hexDigit (n / 256 % 16), hexDigit (n / 16 % 16), hexDigit (n % 16)]⟩

/-- JSON string escaping as performed by `json.dumps` with `ensure_ascii=True`:
shorthand escapes for `"` `\\` and the common control characters, `\uXXXX`
for other control characters and all non-ASCII characters (surrogate pairs
for astral-plane characters). -/
def escChar (c : Char) : String :=
  if c = '"' then "\\\""
  else if c = '\\' then "\\\\"
  else if c = '\n' then "\\n"
  else if c = '\t' then "\\t"
  else if c = '\r' then "\\r"
  else if c = Char.ofNat 8 then "\\b"
  else if c = Char.ofNat 12 then "\\f"
  else if c.toNat < 32 then "\\u" ++ hex4 c.toNat
  else if c.toNat < 128 then String.singleton c
  else if c.toNat < 65536 then "\\u" ++ hex4 c.toNat
  else
    "\\u" ++ hex4 (55296 + (c.toNat - 65536) / 1024) ++ "\\u" ++ hex4 (56320 + (c.toNat - 65536) % 1024)

/-- The serialized form of a Python string. -/
def quoteStr (s : String) : String :=
  "\"" ++ String.join (s.data.map escChar) ++ "\""

mutual

/-- Model of `json.dumps` on the modelled value universe (default separators, dicts in
insertion order). A non-serializable object raises
`TypeError("Object of type <tag> is not JSON serializable")`; the model
returns that message as the `Except.error` payload. -/
def dumpsVal : PyVal → Except String String
  | .none => .ok "null"
  | .bool true => .ok "true"
  | .bool false => .ok "false"
  | .int n => .ok (toString n)
  | .str s => .ok (quoteStr s)
  | .list xs =>
    match dumpsItems xs with
    | .error e => .error e
    | .ok ss => .ok ("[" ++ String.intercalate ", " ss ++ "]")
  | .dict kvs =>
    match dumpsPairs kvs with
    | .error e => .error e
    | .ok ss => .ok ("\x7b" ++ String.intercalate ", " ss ++ "\x7d")
  | .obj tag => .error ("Object of type " ++ tag ++ " is not JSON serializable")

/-- Serialize the elements of a list. -/
def dumpsItems : List PyVal → Except String (List String)
  | [] => .ok []
  | v :: vs =>
    match dumpsVal v with
    | .error e => .error e
    | .ok s =>
      match dumpsItems vs with
      | .error e => .error e
      | .ok ss => .ok (s :: ss)

/-- Serialize the entries of a dict, each as `"key": value`. -/
def dumpsPairs : List (String × PyVal) → Except String (List String)
  | [] => .ok []
  | (k, v) :: kvs =>
    match dumpsVal v with
    | .error e => .error e
    | .ok s =>
      match dumpsPairs kvs with
      | .error e => .error e
      | .ok ss => .ok ((quoteStr k ++ ": " ++ s) :: ss)

end

/-- JSON whitespace. -/
def isJsonWs (c : Char) : Bool := c = ' ' || c = '\t' || c = '\n' || c = '\r'

/-- Skip JSON whitespace. -/
def skipWs (cs : List Char) : List Char := cs.dropWhile isJsonWs

/-- Value of a hex digit, if any. -/
def hexVal (c : Char) : Option Nat :=
  if isDigitC c then some (c.toNat - 48)
  else if 'a' ≤ c ∧ c ≤ 'f' then some (c.toNat - 87)
  else if 'A' ≤ c ∧ c ≤ 'F' then some (c.toNat - 55)
  else Option.none

/-- Parse the body of a JSON string after the opening quote; returns the
decoded content and the input after the closing quote. Handles the shorthand
escapes and `\uXXXX` (surrogate pairs are not recombined; an escape naming an
invalid scalar decodes to `Char.ofNat`'s default). Unescaped control
characters are rejected, as in Python's strict mode. -/
def parseStrBody : List Char → Option (String × List Char)
  | [] => Option.none
  | '"' :: rest => some ("", rest)
  | '\\' :: 'u' :: h1 :: h2 :: h3 :: h4 :: rest =>
    match hexVal h1, hexVal h2, hexVal h3, hexVal h4 with
    | some a, some b, some c, some d =>
      match parseStrBody rest with
      | some p => some (String.singleton (Char.ofNat (a * 4096 + b * 256 + c * 16 + d)) ++ p.1, p.2)
      | Option.none => Option.none
    | _, _, _, _ => Option.none
  | '\\' :: e :: rest =>
    let dec : Option Char :=
      if e = '"' then some '"'
      else if e = '\\' then some '\\'
      else if e = '/' then some '/'
      else if e = 'n' then some '\n'
      else if e = 't' then some '\t'
      else if e = 'r' then some '\r'
      else if e = 'b' then some (Char.ofNat 8)
      else if e = 'f' then some (Char.ofNat 12)
      else Option.none
    match dec with
    | some c =>
      match parseStrBody rest with
      | some p => some (String.singleton c ++ p.1, p.2)
      | Option.none => Option.none
    | Option.none => Option.none
  | c :: rest =>
    if c.toNat < 32 then Option.none
    else
      match parseStrBody rest with
      | some p => some (String.singleton c ++ p.1, p.2)
      | Option.none => Option.none

/-- Parse a JSON number. Floats are outside the modelled value universe, so a
fractional part or exponent makes the modelled `loads` fail. -/
def parseNumber (cs : List Char) : Option (PyVal × List Char) :=
  let neg := cs.head? = some '-'
  let cs1 := if neg then cs.tail else cs
  let ds := cs1.takeWhile isDigitC
  let rest := cs1.dropWhile isDigitC
  if ds.isEmpty then Option.none
  else if 1 < ds.length ∧ ds.head? = some '0' then Option.none
  else
    match rest with
    | c :: _ =>
      if c = '.' ∨ c = 'e' ∨ c = 'E' then Option.none
      else
        let n : Nat := ds.foldl (fun acc c => acc * 10 + (c.toNat - 48)) 0
        some (.int (if neg then -(n : Int) else (n : Int)), rest)
    | [] =>
      let n : Nat := ds.foldl (fun acc c => acc * 10 + (c.toNat - 48)) 0
      some (.int (if neg then -(n : Int) else (n : Int)), rest)

/-- Insert a parsed object entry in front of the later entries, with Python
dict semantics for duplicate keys: the earliest occurrence keeps its position
and the latest occurrence's value wins. -/
def consPair (k : String) (v : PyVal) (tail : List (String × PyVal)) : List (String × PyVal) :=
  match tail.find? (fun p => p.1 = k) with
  | some p => (k, p.2) :: tail.filter (fun q => ¬ q.1 = k)
  | Option.none => (k, v) :: tail

mutual

/-- Model of the `json.loads` recursive-descent parser on the modelled universe,
returning the parsed value and the remaining input. The fuel argument only
bounds recursion depth; `loads` supplies more fuel than input characters. -/
def parseVal : Nat → List Char → Option (PyVal × List Char)
  | 0, _ => Option.none
  | Nat.succ fuel, cs =>
    match skipWs cs with
    | [] => Option.none
    | c :: rest =>
      if c = '"' then
        match parseStrBody rest with
        | some p => some (PyVal.str p.1, p.2)
        | Option.none => Option.none
      else if c = '[' then
        if (skipWs rest).head? = some ']' then some (PyVal.list [], (skipWs rest).tail)
        else
          match parseItems fuel (skipWs rest) with
          | some p => some (PyVal.list p.1, p.2)
          | Option.none => Option.none
      else if c = Char.ofNat 123 then
        if (skipWs rest).head? = some (Char.ofNat 125) then
          some (PyVal.dict [], (skipWs rest).tail)
        else
          match parsePairs fuel (skipWs rest) with
          | some p => some (PyVal.dict p.1, p.2)
          | Option.none => Option.none
      else
        match c :: rest with
        | 'n' :: 'u' :: 'l' :: 'l' :: r => some (PyVal.none, r)
        | 't' :: 'r' :: 'u' :: 'e' :: r => some (PyVal.bool true, r)
        | 'f' :: 'a' :: 'l' :: 's' :: 'e' :: r => some (PyVal.bool false, r)
        | cs2 => parseNumber cs2

/-- Parse the elements of a nonempty JSON array, up to and including `]`. -/
def parseItems : Nat → List Char → Option (List PyVal × List Char)
  | 0, _ => Option.none
  | Nat.succ fuel, cs =>
    match parseVal fuel cs with
    | Option.none => Option.none
    | some (v, r1) =>
      if (skipWs r1).head? = some ',' then
        match parseItems fuel (skipWs r1).tail with
        | some p => some (v :: p.1, p.2)
        | Option.none => Option.none
      else if (skipWs r1).head? = some ']' then some ([v], (skipWs r1).tail)
      else Option.none

/-- Parse the entries of a nonempty JSON object, up to and including the
closing brace. -/
def parsePairs : Nat → List Char → Option (List (String × PyVal) × List Char)
  | 0, _ => Option.none
  | Nat.succ fuel, cs =>
    if (skipWs cs).head? = some '"' then
      match parseStrBody (skipWs cs).tail with
      | Option.none => Option.none
      | some (k, r1) =>
        if (skipWs r1).head? = some ':' then
          match parseVal fuel (skipWs r1).tail with
          | Option.none => Option.none
          | some (v, r3) =>
            if (skipWs r3).head? = some ',' then
              match parsePairs fuel (skipWs r3).tail with
              | some p => some (consPair k v p.1, p.2)
              | Option.none => Option.none
            else if (skipWs r3).head? = some (Char.ofNat 125) then
              some ([(k, v)], (skipWs r3).tail)
            else Option.none
        else Option.none
    else Option.none

end

/-- Model of `json.loads(s)` on the modelled universe: parse one value and require
only whitespace to remain; `Option.none` models `json.JSONDecodeError`. -/
def loads (s : String) : Option PyVal :=
  match parseVal (s.length + 1) s.data with
  | some (v, rest) => if (skipWs rest).isEmpty then some v else Option.none
  | Option.none => Option.none

/-- Model of `d.get(k)` on a Python dict represented as a key-unique association list
in insertion order (`Option.none` models the default `None`). -/
def pyGet (kvs : List (String × PyVal)) (k : String) : Option PyVal :=
  (kvs.find? (fun p => p.1 = k)).map (fun p => p.2)

/-- Model of `str()` of a Python value, as used by f-string interpolation. Exact for
`None`, booleans, integers and strings; container and object reprs are
abbreviated (no claim exercises them). -/
def pyStr : PyVal → String
  | .none => "None"
  | .bool true => "True"
  | .bool false => "False"
  | .int n => toString n
  | .str s => s
  | .list _ => "<list>"
  | .dict _ => "<dict>"
  | .obj tag => "<" ++ tag ++ ">"

/-- The `cf_agents_state` SQLite table: a map from the `id` primary key to
the `state` text column. `Option.none` means no row with that id. -/
def StoreMap : Type := String → Option String

/-- Model of `INSERT OR REPLACE INTO cf_agents_state (id, state) VALUES (?, ?)`. -/
def upsertRow (s : StoreMap) (k v : String) : StoreMap :=
  fun k' => if k' = k then some v else s k'

/-- Model of `DELETE FROM cf_agents_state WHERE id = ?`. -/
def deleteRow (s : StoreMap) (k : String) : StoreMap :=
  fun k' => if k' = k then Option.none else s k'

/-- The freshly created table (`_init_tables`). -/
def emptyStore : StoreMap := fun _ => Option.none

/-- The agent actor's observable state: its fixed configuration (class name,
durable-object id string, `initial_state` class attribute with `Option.none`
for the `_UNSET` sentinel), the in-memory `self._state` cache (`Option.none`
for `_UNSET`), the SQLite rows, and the hibernatable WebSockets returned by
`ctx.getWebSockets()` in registration order (connections as numeric ids). -/
structure Agent where
  typeName : String
  name : String
  initial : Option PyVal
  cache : Option PyVal
  store : StoreMap
  conns : List Nat

/-- Per-connection transport behaviour for one delivery round: `Option.none`
means `ws.send` succeeds, `some e` means it raises an exception whose `str`
is `e`. -/
def SendEnv : Type := Nat → Option String

/-- The outcome of one agent operation: the agent afterwards (mutations kept
even when an exception escapes), the sends performed in order, and either the
Python return value or the `str` of the uncaught exception. -/
structure StepResult (α : Type) where
  agent : Agent
  sends : List (Nat × String)
  out : Except String α

/-- The send loop of `_set_state_internal` (agent.py lines 142-145): iterate
the registered sockets in order, skip `source_ws` (compared by identity), and
call `ws.send(msg)` with no exception handling — a raising send aborts the
loop. Returns the sends performed and the first failure, if any. -/
def broadcastLoop (env : SendEnv) (msg : String) (src : Option Nat) :
    List Nat → List (Nat × String) × Option String
  | [] => ([], Option.none)
  | c :: rest =>
    if src = some c then broadcastLoop env msg src rest
    else
      match env c with
      | some e => ([], some e)
      | Option.none =>
        let r := broadcastLoop env msg src rest
        ((c, msg) :: r.1, r.2)

namespace Agent

/-- Model of `_set_state_internal(state, source_ws)` (agent.py lines 128-147): assign
`self._state` first, then `json.dumps(state)` (a failure escapes with the
rows untouched), upsert the current row and the changed marker
(`json.dumps(True)` is `"true"`), build the state wire message, run the send
loop, and finally `on_state_changed` (a no-op in the base class). -/
def set_state_internal (env : SendEnv) (a : Agent) (st : PyVal) (src : Option Nat) :
    StepResult Unit :=
  let a1 : Agent := { a with cache := some st }
  match dumpsVal st with
  | .error e => ⟨a1, [], .error e⟩
  | .ok sj =>
    let a2 : Agent :=
      { a1 with store := upsertRow (upsertRow a1.store STATE_ROW_ID sj) STATE_WAS_CHANGED "true" }
    match dumpsVal (.dict [("type", .str CF_AGENT_STATE), ("state", st)]) with
    | .error e => ⟨a2, [], .error e⟩
    | .ok msg =>
      match broadcastLoop env msg src a2.conns with
      | (ss, some e) => ⟨a2, ss, .error e⟩
      | (ss, Option.none) => ⟨a2, ss, .ok ()⟩

/-- Model of `set_state(state)` (agent.py lines 124-126). -/
def set_state (env : SendEnv) (a : Agent) (st : PyVal) : StepResult Unit :=
  set_state_internal env a st Option.none

end Agent

/-- What the `state` property returns to its caller: either a Python value or
the `_UNSET` sentinel object itself (`return self._state` on line 116 leaks
the sentinel when the changed marker exists but the current row is absent). -/
inductive StateVal where
  | sentinel
  | val (v : PyVal)

namespace Agent

/-- The `state` property (agent.py lines 83-122): return the cache if set;
otherwise consult the changed marker; if present, read and deserialize the
current row, recovering from a deserialization failure by re-persisting the
configured default (which broadcasts) or, with no default, deleting both rows
and returning `None`; if the marker is absent, return `None` with no default,
or persist and return the default (which broadcasts) otherwise. -/
def state (env : SendEnv) (a : Agent) : StepResult StateVal :=
  match a.cache with
  | some v => ⟨a, [], .ok (.val v)⟩
  | Option.none =>
    match a.store STATE_WAS_CHANGED with
    | some _ =>
      match a.store STATE_ROW_ID with
      | some payload =>
        match loads payload with
        | some v => ⟨{ a with cache := some v }, [], .ok (.val v)⟩
        | Option.none =>
          match a.initial with
          | some d =>
            let r := set_state_internal env { a with cache := some d } d Option.none
            match r.out with
            | .error e => ⟨r.agent, r.sends, .error e⟩
            | .ok _ =>
              ⟨r.agent, r.sends,
                .ok (match r.agent.cache with
                     | some v => .val v
                     | Option.none => .sentinel)⟩
          | Option.none =>
            ⟨{ a with store := deleteRow (deleteRow a.store STATE_ROW_ID) STATE_WAS_CHANGED },
              [], .ok (.val PyVal.none)⟩
      | Option.none =>
        ⟨a, [],
          .ok (match a.cache with
               | some v => .val v
               | Option.none => .sentinel)⟩
    | Option.none =>
      match a.initial with
      | Option.none => ⟨a, [], .ok (.val PyVal.none)⟩
      | some d =>
        let r := set_state_internal env a d Option.none
        match r.out with
        | .error e => ⟨r.agent, r.sends, .error e⟩
        | .ok _ => ⟨r.agent, r.sends, .ok (.val d)⟩

end Agent

/-- The identity wire message dict built in `fetch` (agent.py lines 171-175). -/
def identityDict (a : Agent) : PyVal :=
  .dict [("type", .str CF_AGENT_IDENTITY), ("name", .str a.name),
         ("agent", .str (camel_to_kebab a.typeName))]

/-- The check `current is not None` (agent.py line 177): true for every value except
`None` — in particular true for the leaked `_UNSET` sentinel. -/
def isNotNone : StateVal → Bool
  | .sentinel => true
  | .val .none => false
  | .val _ => true

/-- Model of `json.dumps` applied to the state wire message dict, where the current value
may be the `_UNSET` sentinel object, whose serialization raises
`TypeError("Object of type object is not JSON serializable")`. -/
def stateMsgOf : StateVal → Except String String
  | .sentinel => dumpsVal (.dict [("type", .str CF_AGENT_STATE), ("state", .obj "object")])
  | .val v => dumpsVal (.dict [("type", .str CF_AGENT_STATE), ("state", v)])

namespace Agent

/-- The WebSocket-upgrade branch of `fetch` (agent.py lines 162-182):
`acceptWebSocket` registers the server socket, the identity message is sent
to it, the state is resolved (with that resolution's own side effects and
sends), and a state message is sent to the new socket alone when the
resolved value is not `None`. Exceptions from a send or from the state
resolution escape. -/
def fetch_ws (env : SendEnv) (a : Agent) (server : Nat) : StepResult Unit :=
  let a1 : Agent := { a with conns := a.conns ++ [server] }
  match dumpsVal (identityDict a1) with
  | .error e => ⟨a1, [], .error e⟩
  | .ok idMsg =>
    match env server with
    | some e => ⟨a1, [], .error e⟩
    | Option.none =>
      let r := Agent.state env a1
      match r.out with
      | .error e => ⟨r.agent, (server, idMsg) :: r.sends, .error e⟩
      | .ok cur =>
        if isNotNone cur then
          match stateMsgOf cur with
          | .error e => ⟨r.agent, (server, idMsg) :: r.sends, .error e⟩
          | .ok m =>
            match env server with
            | some e => ⟨r.agent, (server, idMsg) :: r.sends, .error e⟩
            | Option.none => ⟨r.agent, ((server, idMsg) :: r.sends) ++ [(server, m)], .ok ()⟩
        else ⟨r.agent, (server, idMsg) :: r.sends, .ok ()⟩

/-- The non-upgrade branch of `fetch` (agent.py lines 184-187): resolve the
state (with that resolution's side effects) and return the JSON body
`{"agent": <kebab>, "state": <state>}`; serializing the leaked sentinel is
a `TypeError`, as in `stateMsgOf`. -/
def fetch_http (env : SendEnv) (a : Agent) : StepResult String :=
  let r := Agent.state env a
  match r.out with
  | .error e => ⟨r.agent, r.sends, .error e⟩
  | .ok cur =>
    let bodyVal : PyVal :=
      match cur with
      | .sentinel => .dict [("agent", .str (camel_to_kebab a.typeName)), ("state", .obj "object")]
      | .val v => .dict [("agent", .str (camel_to_kebab a.typeName)), ("state", v)]
    match dumpsVal bodyVal with
    | .error e => ⟨r.agent, r.sends, .error e⟩
    | .ok body => ⟨r.agent, r.sends, .ok body⟩

end Agent

/-- A capability handler bound to the agent (a method marked `@callable` on
the subclass): given the send environment, the positional arguments and the
agent, it returns the agent afterwards, the sends it performed itself (e.g. a
`set_state` broadcast), and either its return value or the `str` of the
exception it raised. -/
def Handler : Type :=
  SendEnv → List PyVal → Agent → Agent × List (Nat × String) × Except String PyVal

/-- Model of `method(*args)` argument unpacking: the wire `args` is expected to be a
JSON array. Unpacking of the other shapes that can appear after `.get` is
abbreviated as a `TypeError` (Python would iterate strings and dicts; no
claim exercises that). -/
def starArgs : PyVal → Except String (List PyVal)
  | .list xs => .ok xs
  | _ => .error "argument unpacking failed"

namespace Agent

/-- Model of `name.startswith("_")`. -/
def underscored (s : String) : Bool := s.data.head? = some '_'

/-- Model of `_get_callable_methods` (agent.py lines 229-238) applied to the static
registry of `@callable`-marked methods of the agent type: names starting
with an underscore are skipped before the marker test. -/
def callables (methods : List (String × Handler)) : List (String × Handler) :=
  methods.filter (fun p => ¬ underscored p.1)

/-- Model of `_handle_rpc(ws, parsed)` (agent.py lines 240-271): read `id`, `method`
and `args` from the parsed message; answer an unregistered method with a
failure response naming it; otherwise call the handler with the arguments
unpacked positionally and send a success response, any exception raised by
the call, the serialization of the result, or the sending of the success
response being caught and answered with a failure response carrying its
description. The failure-response send itself is unprotected. -/
def handle_rpc (env : SendEnv) (methods : List (String × Handler)) (a : Agent) (ws : Nat)
    (kvs : List (String × PyVal)) : StepResult Unit :=
  let rpc_id : PyVal := (pyGet kvs "id").getD PyVal.none
  let method_name : PyVal := (pyGet kvs "method").getD PyVal.none
  let argsv : PyVal := (pyGet kvs "args").getD (.list [])
  let sendFailure : Agent → List (Nat × String) → String → StepResult Unit :=
    fun a2 hs e =>
      match dumpsVal (.dict [("type", .str RPC), ("id", rpc_id), ("success", .bool false),
                             ("error", .str e)]) with
      | .error e2 => ⟨a2, hs, .error e2⟩
      | .ok s =>
        match env ws with
        | some e2 => ⟨a2, hs, .error e2⟩
        | Option.none => ⟨a2, hs ++ [(ws, s)], .ok ()⟩
  match method_name with
  | .str nm =>
    match (callables methods).find? (fun p => p.1 = nm) with
    | Option.none =>
      sendFailure a [] ("Method " ++ pyStr method_name ++ " is not callable")
    | some (_, h) =>
      match starArgs argsv with
      | .error e => sendFailure a [] e
      | .ok args =>
        match h env args a with
        | (a2, hs, .error e) => sendFailure a2 hs e
        | (a2, hs, .ok v) =>
          match dumpsVal (.dict [("type", .str RPC), ("id", rpc_id), ("success", .bool true),
                                 ("result", v)]) with
          | .error e => sendFailure a2 hs e
          | .ok s =>
            match env ws with
            | some e => sendFailure a2 hs e
            | Option.none => ⟨a2, hs ++ [(ws, s)], .ok ()⟩
  | _ => sendFailure a [] ("Method " ++ pyStr method_name ++ " is not callable")

/-- Model of `webSocketMessage(ws, message)` (agent.py lines 189-217) for a text
frame: a JSON parse failure goes to the `on_message` hook (a no-op in the
base class); a parsed dict is routed on its `"type"` to the state-push
handler (write, then broadcast excluding the sender; a failure is caught and
answered with a `cf_agent_state_error` to the sender alone) or to the RPC
dispatcher; other types go to the hook. A parsed non-dict raises
`AttributeError` from `parsed.get`. -/
def webSocketMessage (env : SendEnv) (methods : List (String × Handler)) (a : Agent)
    (ws : Nat) (message : String) : StepResult Unit :=
  match loads message with
  | Option.none => ⟨a, [], .ok ()⟩
  | some parsed =>
    match parsed with
    | .dict kvs =>
      let typeIs : String → Bool := fun t =>
        match pyGet kvs "type" with
        | some (.str s) => s = t
        | _ => false
      if typeIs CF_AGENT_STATE then
        let new_state : PyVal := (pyGet kvs "state").getD PyVal.none
        let r := set_state_internal env a new_state (some ws)
        match r.out with
        | .ok _ => ⟨r.agent, r.sends, .ok ()⟩
        | .error e =>
          match dumpsVal (.dict [("type", .str CF_AGENT_STATE_ERROR), ("error", .str e)]) with
          | .error e2 => ⟨r.agent, r.sends, .error e2⟩
          | .ok em =>
            match env ws with
            | some e2 => ⟨r.agent, r.sends, .error e2⟩
            | Option.none => ⟨r.agent, r.sends ++ [(ws, em)], .ok ()⟩
      else if typeIs RPC then
        handle_rpc env methods a ws kvs
      else ⟨a, [], .ok ()⟩
    | _ => ⟨a, [], .error "AttributeError: object has no attribute get"⟩

end Agent

/-! ### Concrete fixtures used by the closed scenarios -/

/-- A transport on which every send succeeds. -/
def envReliable : SendEnv := fun _ => Option.none

/-- A transport on which sending to connection 1 raises `boom` and every
other send succeeds. -/
def envFail1 : SendEnv := fun c => if c = 1 then some "boom" else Option.none

/-- A `CounterAgent` instance named `n` with the given `initial_state`,
cache, rows and registered connections. -/
def counterAgent (init : Option PyVal) (cache : Option PyVal) (store : StoreMap)
    (conns : List Nat) : Agent :=
  ⟨"CounterAgent", "n", init, cache, store, conns⟩

/-- Rows of an identity whose changed marker is set but whose current row
holds text that does not deserialize. -/
def corruptStore : StoreMap :=
  upsertRow (upsertRow emptyStore STATE_ROW_ID "x") STATE_WAS_CHANGED "true"

/-- Rows of an identity whose persisted state is JSON `null`. -/
def nullStore : StoreMap :=
  upsertRow (upsertRow emptyStore STATE_ROW_ID "null") STATE_WAS_CHANGED "true"

/-- A capability handler that returns its integer argument incremented. -/
def incHandler : Handler :=
  fun _ args a => (a, [], .ok (match args with | [.int n] => .int (n + 1) | _ => .int 0))

/-- A capability handler that raises. -/
def raiseHandler : Handler := fun _ _ a => (a, [], .error "ValueError: nope")

/-- The capability registry of the demo agent type. -/
def demoMethods : List (String × Handler) := [("inc", incHandler), ("boom", raiseHandler)]

/-- The paired-rows property: the current-state row and the changed-marker
row are either both present or both absent. -/
def pairedStore (s : StoreMap) : Prop :=
  s STATE_ROW_ID = Option.none ↔ s STATE_WAS_CHANGED = Option.none

/-! ### Helper lemmas -/

theorem broadcastLoop_all_ok (env : SendEnv) (msg : String) (src : Option Nat) :
    ∀ l : List Nat, (∀ c ∈ l, ¬ src = some c → env c = Option.none) →
      broadcastLoop env msg src l =
        ((l.filter (fun c => ¬ src = some c)).map (fun c => (c, msg)), Option.none) := by
  intro l
  induction l with
  | nil => intro _; rfl
  | cons c rest ih =>
    intro h
    by_cases hsrc : src = some c
    · simp only [broadcastLoop, if_pos hsrc]
      rw [ih (fun d hd hnd => h d (List.mem_cons_of_mem _ hd) hnd)]
      simp [List.filter_cons, hsrc]
    · have hc : env c = Option.none := h c (List.mem_cons_self _ _) hsrc
      simp only [broadcastLoop, if_neg hsrc, hc]
      rw [ih (fun d hd hnd => h d (List.mem_cons_of_mem _ hd) hnd)]
      simp [List.filter_cons, hsrc]

theorem broadcastLoop_sends_prefix (env : SendEnv) (msg : String) (src : Option Nat) :
    ∀ l : List Nat,
      (broadcastLoop env msg src l).1 <+:
        (l.filter (fun c => ¬ src = some c)).map (fun c => (c, msg)) := by
  intro l
  induction l with
  | nil => simp [broadcastLoop]
  | cons c rest ih =>
    by_cases hsrc : src = some c
    · simpa [broadcastLoop, if_pos hsrc, List.filter_cons, hsrc] using ih
    · cases hc : env c with
      | some e => simp [broadcastLoop, if_neg hsrc, hc]
      | none =>
        simp only [broadcastLoop, if_neg hsrc, hc]
        obtain ⟨t, ht⟩ := ih
        simp only [decide_not] at ht
        refine ⟨t, ?_⟩
        rw [List.filter_cons]
        simp only [hsrc, decide_not, decide_eq_false_iff_not, not_false_iff, Bool.not_false,
          if_pos, List.map_cons, List.cons_append]
        exact congrArg _ ht

theorem dumpsItems_ok_of (xs : List PyVal) (h : ∀ v ∈ xs, ∃ s, dumpsVal v = .ok s) :
    ∃ ss, dumpsItems xs = .ok ss := by
  induction xs with
  | nil => exact ⟨[], rfl⟩
  | cons v vs ih =>
    obtain ⟨s, hs⟩ := h v (List.mem_cons_self _ _)
    obtain ⟨ss, hss⟩ := ih (fun w hw => h w (List.mem_cons_of_mem _ hw))
    exact ⟨s :: ss, by simp [dumpsItems, hs, hss]⟩

theorem dumpsPairs_ok_of (kvs : List (String × PyVal))
    (h : ∀ p ∈ kvs, ∃ s, dumpsVal p.2 = .ok s) :
    ∃ ss, dumpsPairs kvs = .ok ss := by
  induction kvs with
  | nil => exact ⟨[], rfl⟩
  | cons p ps ih =>
    obtain ⟨s, hs⟩ := h p (List.mem_cons_self _ _)
    obtain ⟨ss, hss⟩ := ih (fun q hq => h q (List.mem_cons_of_mem _ hq))
    obtain ⟨k, v⟩ := p
    exact ⟨(quoteStr k ++ ": " ++ s) :: ss, by simp [dumpsPairs, hs, hss]⟩

theorem dumpsDict_ok_of (kvs : List (String × PyVal))
    (h : ∀ p ∈ kvs, ∃ s, dumpsVal p.2 = .ok s) :
    ∃ m, dumpsVal (.dict kvs) = .ok m := by
  obtain ⟨ss, hss⟩ := dumpsPairs_ok_of kvs h
  exact ⟨"\x7b" ++ String.intercalate ", " ss ++ "\x7d", by simp [dumpsVal, hss]⟩

theorem dumpsItems_ok_val (xs : List PyVal) :
    ∀ ss, dumpsItems xs = .ok ss → ∀ v ∈ xs, ∃ s, dumpsVal v = .ok s := by
  induction xs with
  | nil => intro ss _ v hv; cases hv
  | cons w ws ih =>
    intro ss h v hv
    rw [dumpsItems] at h
    cases hw : dumpsVal w with
    | error e => rw [hw] at h; cases h
    | ok s =>
      rw [hw] at h
      cases hws : dumpsItems ws with
      | error e => rw [hws] at h; cases h
      | ok ss2 =>
        rcases List.mem_cons.1 hv with hv | hv
        · exact ⟨s, hv ▸ hw⟩
        · exact ih ss2 hws v hv

theorem dumpsPairs_ok_val (kvs : List (String × PyVal)) :
    ∀ ss, dumpsPairs kvs = .ok ss → ∀ p ∈ kvs, ∃ s, dumpsVal p.2 = .ok s := by
  induction kvs with
  | nil => intro ss _ p hp; cases hp
  | cons q qs ih =>
    intro ss h p hp
    obtain ⟨k, v⟩ := q
    rw [dumpsPairs] at h
    cases hv : dumpsVal v with
    | error e => rw [hv] at h; cases h
    | ok s =>
      rw [hv] at h
      cases hqs : dumpsPairs qs with
      | error e => rw [hqs] at h; cases h
      | ok ss2 =>
        rcases List.mem_cons.1 hp with hp | hp
        · exact ⟨s, by rw [hp]; exact hv⟩
        · exact ih ss2 hqs p hp

theorem parseNumber_serializable :
    ∀ cs v r, parseNumber cs = some (v, r) → ∃ s, dumpsVal v = .ok s := by
  intro cs v r
  simp only [parseNumber]
  repeat' split
  all_goals intro h
  all_goals cases h
  all_goals exact ⟨_, rfl⟩

theorem consPair_vals_ok (k : String) (v : PyVal) (tl : List (String × PyVal))
    (hv : ∃ s, dumpsVal v = .ok s) (htl : ∀ q ∈ tl, ∃ s, dumpsVal q.2 = .ok s) :
    ∀ q ∈ consPair k v tl, ∃ s, dumpsVal q.2 = .ok s := by
  intro q hq
  unfold consPair at hq
  cases hf : tl.find? (fun p => p.1 = k) with
  | some p =>
    rw [hf] at hq
    rcases List.mem_cons.1 hq with hq | hq
    · have hp := List.mem_of_find?_eq_some hf
      rw [hq]
      exact htl p hp
    · exact htl q (List.mem_of_mem_filter hq)
  | none =>
    rw [hf] at hq
    rcases List.mem_cons.1 hq with hq | hq
    · rw [hq]; exact hv
    · exact htl q hq

/-- Every value the JSON parser can produce is serializable: `json.loads`
never yields a non-JSON-serializable object, so `json.dumps` succeeds on any
value (or sub-value) read off the wire. -/
theorem parse_serializable :
    ∀ fuel : Nat,
      (∀ cs v r, parseVal fuel cs = some (v, r) → ∃ s, dumpsVal v = .ok s) ∧
      (∀ cs vs r, parseItems fuel cs = some (vs, r) → ∃ ss, dumpsItems vs = .ok ss) ∧
      (∀ cs kvs r, parsePairs fuel cs = some (kvs, r) → ∃ ss, dumpsPairs kvs = .ok ss) := by
  intro fuel
  induction fuel with
  | zero =>
    refine ⟨?_, ?_, ?_⟩ <;> intro cs a r h <;>
      simp [parseVal, parseItems, parsePairs] at h
  | succ n ih =>
    obtain ⟨ihV, ihI, ihP⟩ := ih
    refine ⟨?_, ?_, ?_⟩
    · intro cs v r h
      rw [parseVal] at h
      cases hws : skipWs cs with
      | nil => rw [hws] at h; cases h
      | cons c rest =>
        rw [hws] at h
        dsimp only at h
        split_ifs at h
        · cases hp : parseStrBody rest with
          | none => rw [hp] at h; cases h
          | some p => rw [hp] at h; cases h; exact ⟨_, rfl⟩
        · cases h; exact ⟨_, rfl⟩
        · cases hp : parseItems n (skipWs rest) with
          | none => rw [hp] at h; cases h
          | some p =>
            rw [hp] at h; cases h
            obtain ⟨ss, hss⟩ := ihI _ _ _ hp
            refine ⟨"[" ++ String.intercalate ", " ss ++ "]", ?_⟩
            simp [dumpsVal, hss]
        · cases h; exact ⟨_, rfl⟩
        · cases hp : parsePairs n (skipWs rest) with
          | none => rw [hp] at h; cases h
          | some p =>
            rw [hp] at h; cases h
            obtain ⟨ss, hss⟩ := ihP _ _ _ hp
            refine ⟨"\x7b" ++ String.intercalate ", " ss ++ "\x7d", ?_⟩
            simp [dumpsVal, hss]
        · revert h
          repeat' split
          all_goals intro h
          all_goals try cases h
          all_goals first
            | exact ⟨_, rfl⟩
            | exact parseNumber_serializable _ _ _ h
    · intro cs vs r h
      rw [parseItems] at h
      cases hV : parseVal n cs with
      | none => rw [hV] at h; cases h
      | some vr =>
        rw [hV] at h
        obtain ⟨v1, r1⟩ := vr
        dsimp only at h
        split_ifs at h
        · cases hp : parseItems n (skipWs r1).tail with
          | none => rw [hp] at h; cases h
          | some p =>
            rw [hp] at h; cases h
            obtain ⟨s, hs⟩ := ihV _ _ _ hV
            obtain ⟨ss, hss⟩ := ihI _ _ _ hp
            refine ⟨s :: ss, ?_⟩
            simp [dumpsItems, hs, hss]
        · cases h
          obtain ⟨s, hs⟩ := ihV _ _ _ hV
          refine ⟨[s], ?_⟩
          simp [dumpsItems, hs]
    · intro cs kvs r h
      rw [parsePairs] at h
      split_ifs at h
      · cases hk : parseStrBody (skipWs cs).tail with
        | none => rw [hk] at h; cases h
        | some kr =>
          rw [hk] at h
          obtain ⟨k, r1⟩ := kr
          dsimp only at h
          split_ifs at h
          · cases hV : parseVal n (skipWs r1).tail with
            | none => rw [hV] at h; cases h
            | some vr =>
              rw [hV] at h
              obtain ⟨v1, r3⟩ := vr
              dsimp only at h
              split_ifs at h
              · cases hp : parsePairs n (skipWs r3).tail with
                | none => rw [hp] at h; cases h
                | some p =>
                  rw [hp] at h; cases h
                  obtain ⟨s, hs⟩ := ihV _ _ _ hV
                  obtain ⟨ss, hss⟩ := ihP _ _ _ hp
                  exact dumpsPairs_ok_of _
                    (consPair_vals_ok _ _ _ ⟨s, hs⟩ (dumpsPairs_ok_val _ _ hss))
              · cases h
                obtain ⟨s, hs⟩ := ihV _ _ _ hV
                refine ⟨[quoteStr k ++ ": " ++ s], ?_⟩
                simp [dumpsPairs, hs]

/-- C6: the identity formatter is a pure function (a Lean function of the
type name alone) and matches the three spec examples byte for byte. -/
theorem camel_to_kebab_spec_examples :
    camel_to_kebab "CounterAgent" = "counter-agent" ∧
    camel_to_kebab "Agent" = "agent" ∧
    camel_to_kebab "HTTPServerAgent" = "http-server-agent" := by
  refine ⟨?_, ?_, ?_⟩ <;> rfl

theorem upsertRow_self (s : StoreMap) (k v : String) : upsertRow s k v k = some v := by
  simp [upsertRow]

theorem upsertRow_other (s : StoreMap) (k v k' : String) (h : ¬ k' = k) :
    upsertRow s k v k' = s k' := by
  simp [upsertRow, h]

theorem dumpsVal_dict_ok_val (kvs : List (String × PyVal)) (m : String)
    (h : dumpsVal (.dict kvs) = .ok m) : ∀ p ∈ kvs, ∃ s, dumpsVal p.2 = .ok s := by
  rw [dumpsVal] at h
  cases hp : dumpsPairs kvs with
  | error e => rw [hp] at h; cases h
  | ok ss => exact dumpsPairs_ok_val _ _ hp

/-- Any member value of a dict obtained from `loads` is serializable. -/
theorem loads_dict_val_serializable (s : String) (kvs : List (String × PyVal))
    (h : loads s = some (.dict kvs)) : ∀ p ∈ kvs, ∃ m, dumpsVal p.2 = .ok m := by
  unfold loads at h
  cases hp : parseVal (s.length + 1) s.data with
  | none => rw [hp] at h; cases h
  | some vr =>
    obtain ⟨v, r⟩ := vr
    rw [hp] at h
    dsimp only at h
    split_ifs at h
    simp only [Option.some.injEq] at h
    obtain ⟨m, hm⟩ := (parse_serializable (s.length + 1)).1 _ _ _ hp
    rw [h] at hm
    exact dumpsVal_dict_ok_val _ _ hm

/-- The `state` field read off a loaded message is serializable (with the
`.get` default `None` when absent). -/
theorem loads_state_field_serializable (s : String) (kvs : List (String × PyVal))
    (h : loads s = some (.dict kvs)) :
    ∃ m, dumpsVal ((pyGet kvs "state").getD PyVal.none) = .ok m := by
  cases hg : pyGet kvs "state" with
  | none => exact ⟨"null", rfl⟩
  | some v =>
    unfold pyGet at hg
    cases hf : kvs.find? (fun p => p.1 = "state") with
    | none => rw [hf] at hg; cases hg
    | some p =>
      rw [hf] at hg
      simp only [Option.map_some', Option.some.injEq] at hg
      have hmem := List.mem_of_find?_eq_some hf
      obtain ⟨m, hm⟩ := loads_dict_val_serializable s kvs h p hmem
      exact ⟨m, by rw [Option.getD_some, ← hg]; exact hm⟩

/-- The wire message dict for a serializable state value serializes. -/
theorem stateDict_ok (st : PyVal) (sj : String) (h : dumpsVal st = .ok sj) :
    ∃ m, dumpsVal (.dict [("type", .str CF_AGENT_STATE), ("state", st)]) = .ok m := by
  refine dumpsDict_ok_of _ ?_
  intro p hp
  rcases List.mem_cons.1 hp with hp | hp
  · exact ⟨quoteStr CF_AGENT_STATE, by rw [hp]; rfl⟩
  · rcases List.mem_cons.1 hp with hp | hp
    · exact ⟨sj, by rw [hp]; exact h⟩
    · cases hp

/-- Fully-resolved form of a successful `_set_state_internal`: when the new
state serializes and every non-excluded registered socket accepts the send,
the rows are upserted, the cache is updated, the state message goes to every
non-excluded socket in registration order, and the call returns normally. -/
theorem set_state_internal_ok (env : SendEnv) (a : Agent) (st : PyVal) (src : Option Nat)
    (sj : String) (h : dumpsVal st = .ok sj)
    (henv : ∀ c ∈ a.conns, ¬ src = some c → env c = Option.none) :
    ∃ m, dumpsVal (.dict [("type", .str CF_AGENT_STATE), ("state", st)]) = .ok m ∧
      (Agent.set_state_internal env a st src).agent.cache = some st ∧
      (Agent.set_state_internal env a st src).agent.store =
        upsertRow (upsertRow a.store STATE_ROW_ID sj) STATE_WAS_CHANGED "true" ∧
      (Agent.set_state_internal env a st src).agent.conns = a.conns ∧
      (Agent.set_state_internal env a st src).agent.initial = a.initial ∧
      (Agent.set_state_internal env a st src).sends =
        (a.conns.filter (fun c => ¬ src = some c)).map (fun c => (c, m)) ∧
      (Agent.set_state_internal env a st src).out = .ok () := by
  obtain ⟨m, hm⟩ := stateDict_ok st sj h
  refine ⟨m, hm, ?_⟩
  simp only [Agent.set_state_internal, h, hm]
  rw [broadcastLoop_all_ok env m src a.conns henv]
  exact ⟨rfl, rfl, rfl, rfl, rfl, rfl⟩

/-- Frame fact about `_set_state_internal` when serialization succeeds: the
row upserts and cache update happen whatever the transport does, and the
sends performed are a prefix (in registration order) of the full
non-excluded fan-out. -/
theorem set_state_internal_store_update (env : SendEnv) (a : Agent) (st : PyVal)
    (src : Option Nat) (sj : String) (h : dumpsVal st = .ok sj) :
    (Agent.set_state_internal env a st src).agent.store STATE_ROW_ID = some sj ∧
    (Agent.set_state_internal env a st src).agent.store STATE_WAS_CHANGED = some "true" ∧
    (Agent.set_state_internal env a st src).agent.cache = some st ∧
    ∃ m, dumpsVal (.dict [("type", .str CF_AGENT_STATE), ("state", st)]) = .ok m ∧
      (Agent.set_state_internal env a st src).sends <+:
        (a.conns.filter (fun c => ¬ src = some c)).map (fun c => (c, m)) := by
  obtain ⟨m, hm⟩ := stateDict_ok st sj h
  simp only [Agent.set_state_internal, h, hm]
  rcases hbl : broadcastLoop env m src a.conns with ⟨ss, f⟩
  have hpre := broadcastLoop_sends_prefix env m src a.conns
  rw [hbl] at hpre
  cases f <;>
    exact ⟨(upsertRow_other (upsertRow a.store STATE_ROW_ID sj) STATE_WAS_CHANGED "true"
          STATE_ROW_ID (by decide)).trans (upsertRow_self a.store STATE_ROW_ID sj),
      upsertRow_self (upsertRow a.store STATE_ROW_ID sj) STATE_WAS_CHANGED "true",
      rfl, m, rfl, hpre⟩

/-- C2, counterexample: pushing a non-JSON-serializable value through
`set_state` surfaces the `TypeError` synchronously and leaves both Store rows
untouched and nothing broadcast — but the in-memory cache HAS been updated to
the failing value (`self._state = state` precedes `json.dumps(state)`), so
the claim that cache and store are both unchanged on failure is false. -/
theorem set_state_failure_cache_mutated_cex :
    (Agent.set_state envReliable (counterAgent Option.none (some (.int 1)) emptyStore [])
        (.obj "set")).out = .error "Object of type set is not JSON serializable" ∧
    (Agent.set_state envReliable (counterAgent Option.none (some (.int 1)) emptyStore [])
        (.obj "set")).agent.store STATE_ROW_ID = Option.none ∧
    (Agent.set_state envReliable (counterAgent Option.none (some (.int 1)) emptyStore [])
        (.obj "set")).agent.store STATE_WAS_CHANGED = Option.none ∧
    (Agent.set_state envReliable (counterAgent Option.none (some (.int 1)) emptyStore [])
        (.obj "set")).sends = [] ∧
    ¬ (Agent.set_state envReliable (counterAgent Option.none (some (.int 1)) emptyStore [])
        (.obj "set")).agent.cache =
      (counterAgent Option.none (some (.int 1)) emptyStore []).cache := by
  refine ⟨rfl, rfl, rfl, rfl, fun hx => ?_⟩
  rw [show (Agent.set_state envReliable (counterAgent Option.none (some (.int 1)) emptyStore [])
        (.obj "set")).agent.cache = some (.obj "set") from rfl] at hx
  exact PyVal.noConfusion (Option.some.inj hx)

/-- C2 (amended): a serialization failure in `set_state` surfaces
synchronously as the `TypeError`'s description, no Store row is touched and
nothing is sent — but the in-memory cache is updated to the failing value
before serialization is attempted. On the wire path the serialization-failure
branch is unreachable: any `state` field of a successfully loaded message is
itself serializable. -/
theorem set_state_failure_atomic_on_store :
    (∀ (env : SendEnv) (a : Agent) (st : PyVal) (e : String), dumpsVal st = .error e →
      Agent.set_state env a st = ⟨{ a with cache := some st }, [], .error e⟩) ∧
    (∀ (s : String) (kvs : List (String × PyVal)), loads s = some (.dict kvs) →
      ∃ m, dumpsVal ((pyGet kvs "state").getD PyVal.none) = .ok m) := by
  constructor
  · intro env a st e h
    simp only [Agent.set_state, Agent.set_state_internal, h]
  · exact fun s kvs h => loads_state_field_serializable s kvs h

theorem set_state_failure_atomic_on_store_witness :
    dumpsVal (.obj "set") = .error "Object of type set is not JSON serializable" ∧
    Agent.set_state envReliable (counterAgent Option.none (some (.int 1)) emptyStore [])
        (.obj "set") =
      ⟨{ counterAgent Option.none (some (.int 1)) emptyStore [] with cache := some (.obj "set") },
        [], .error "Object of type set is not JSON serializable"⟩ ∧
    loads "\x7b\"state\": 5\x7d" = some (.dict [("state", .int 5)]) ∧
    (∃ m, dumpsVal ((pyGet [("state", .int 5)] "state").getD PyVal.none) = .ok m) :=
  ⟨rfl,
    set_state_failure_atomic_on_store.1 envReliable
      (counterAgent Option.none (some (.int 1)) emptyStore []) (.obj "set") _ rfl,
    rfl,
    set_state_failure_atomic_on_store.2 "\x7b\"state\": 5\x7d" [("state", .int 5)] rfl⟩

/-- C3, counterexample: with connections `[1, 2]` registered and the send to
connection 1 raising, a state write performs no send at all — in particular
connection 2, although registered, never receives the broadcast — even though
the Store rows were updated. A send failure on one connection therefore does
prevent the sends to the other connections. -/
theorem broadcast_failure_blocks_others_cex :
    (Agent.set_state envFail1 (counterAgent Option.none Option.none emptyStore [1, 2])
        (.int 5)).sends = [] ∧
    (Agent.set_state envFail1 (counterAgent Option.none Option.none emptyStore [1, 2])
        (.int 5)).agent.store STATE_ROW_ID = some "5" ∧
    (Agent.set_state envFail1 (counterAgent Option.none Option.none emptyStore [1, 2])
        (.int 5)).agent.store STATE_WAS_CHANGED = some "true" ∧
    (Agent.set_state envFail1 (counterAgent Option.none Option.none emptyStore [1, 2])
        (.int 5)).out = .error "boom" ∧
    (counterAgent Option.none Option.none emptyStore [1, 2]).conns = [1, 2] :=
  ⟨rfl, rfl, rfl, rfl, rfl⟩

/-- C3 (amended): for a serializable value, the Store upserts and the cache
update happen before the send loop and are never rolled back whatever the
transport does; the sends actually performed are a prefix, in registration
order, of the full non-excluded fan-out (a raising send aborts the remaining
sends and the exception escapes the write). -/
theorem state_write_never_rolled_back :
    ∀ (env : SendEnv) (a : Agent) (st : PyVal) (src : Option Nat) (sj : String),
      dumpsVal st = .ok sj →
      (Agent.set_state_internal env a st src).agent.store STATE_ROW_ID = some sj ∧
      (Agent.set_state_internal env a st src).agent.store STATE_WAS_CHANGED = some "true" ∧
      (Agent.set_state_internal env a st src).agent.cache = some st ∧
      ∃ m, dumpsVal (.dict [("type", .str CF_AGENT_STATE), ("state", st)]) = .ok m ∧
        (Agent.set_state_internal env a st src).sends <+:
          (a.conns.filter (fun c => ¬ src = some c)).map (fun c => (c, m)) :=
  fun env a st src sj h => set_state_internal_store_update env a st src sj h

theorem state_write_never_rolled_back_witness :
    dumpsVal (.int 5) = .ok "5" ∧
    ((Agent.set_state_internal envFail1 (counterAgent Option.none Option.none emptyStore [1, 2])
        (.int 5) Option.none).agent.store STATE_ROW_ID = some "5" ∧
      (Agent.set_state_internal envFail1 (counterAgent Option.none Option.none emptyStore [1, 2])
        (.int 5) Option.none).agent.store STATE_WAS_CHANGED = some "true" ∧
      (Agent.set_state_internal envFail1 (counterAgent Option.none Option.none emptyStore [1, 2])
        (.int 5) Option.none).agent.cache = some (.int 5) ∧
      ∃ m, dumpsVal (.dict [("type", .str CF_AGENT_STATE), ("state", .int 5)]) = .ok m ∧
        (Agent.set_state_internal envFail1 (counterAgent Option.none Option.none emptyStore [1, 2])
          (.int 5) Option.none).sends <+:
          ((counterAgent Option.none Option.none emptyStore [1, 2]).conns.filter
            (fun c => ¬ (Option.none : Option Nat) = some c)).map (fun c => (c, m))) :=
  ⟨rfl, state_write_never_rolled_back envFail1
    (counterAgent Option.none Option.none emptyStore [1, 2]) (.int 5) Option.none "5" rfl⟩

theorem deleteRow_self (s : StoreMap) (k : String) : deleteRow s k k = Option.none := by
  simp [deleteRow]

theorem deleteRow_other (s : StoreMap) (k k' : String) (h : ¬ k' = k) :
    deleteRow s k k' = s k' := by
  simp [deleteRow, h]

theorem filter_no_src (l : List Nat) :
    (l.filter (fun c => ¬ (Option.none : Option Nat) = some c)) = l :=
  List.filter_eq_self.mpr (fun c _ => by simp)

/-- Resolved form of a first state read with a configured, serializable
default on a reliable transport: the default is returned, cached, eagerly
persisted into both rows, and broadcast to every registered connection. -/
theorem state_resolves_default (env : SendEnv) (a : Agent) (d : PyVal) (sj : String)
    (hc : a.cache = Option.none) (hm : a.store STATE_WAS_CHANGED = Option.none)
    (hi : a.initial = some d) (hd : dumpsVal d = .ok sj)
    (henv : ∀ c ∈ a.conns, env c = Option.none) :
    (Agent.state env a).out = .ok (.val d) ∧
    (Agent.state env a).agent.cache = some d ∧
    (Agent.state env a).agent.store =
      upsertRow (upsertRow a.store STATE_ROW_ID sj) STATE_WAS_CHANGED "true" ∧
    ∃ m, dumpsVal (.dict [("type", .str CF_AGENT_STATE), ("state", d)]) = .ok m ∧
      (Agent.state env a).sends = a.conns.map (fun c => (c, m)) := by
  obtain ⟨m, hmm, hcache, hstore, hconns, hinit, hsends, hout⟩ :=
    set_state_internal_ok env a d Option.none sj hd (fun c hcmem _ => henv c hcmem)
  rw [filter_no_src] at hsends
  refine ⟨?_, ?_, ?_, m, hmm, ?_⟩
  · simp only [Agent.state, hc, hm, hi, hout]
  · simp only [Agent.state, hc, hm, hi, hout]; exact hcache
  · simp only [Agent.state, hc, hm, hi, hout]; exact hstore
  · simp only [Agent.state, hc, hm, hi, hout]; exact hsends

/-- C1, counterexample: on an identity with no prior write and configured
default `0`, reading the `state` property writes both Store rows, broadcasts
a state message to the registered connection, and the non-upgrade snapshot
request does the same — the resolution is eager and effectful, not lazy and
read-only as claimed. -/
theorem state_read_default_effectful_cex :
    emptyStore STATE_ROW_ID = Option.none ∧
    (Agent.state envReliable (counterAgent (some (.int 0)) Option.none emptyStore [3])).agent.store STATE_ROW_ID = some "0" ∧
    (Agent.state envReliable (counterAgent (some (.int 0)) Option.none emptyStore [3])).agent.store STATE_WAS_CHANGED = some "true" ∧
    (Agent.state envReliable (counterAgent (some (.int 0)) Option.none emptyStore [3])).sends = [(3, "\x7b\"type\": \"cf_agent_state\", \"state\": 0\x7d")] ∧
    (Agent.state envReliable (counterAgent (some (.int 0)) Option.none emptyStore [3])).out = .ok (.val (.int 0)) ∧
    (Agent.fetch_http envReliable (counterAgent (some (.int 0)) Option.none emptyStore [])).agent.store STATE_ROW_ID = some "0" :=
  ⟨rfl, rfl, rfl, rfl, rfl, rfl⟩

/-- C1 (amended): with no prior write, resolving the state with no configured
default returns `None` and is side-effect free; with a configured
serializable default it returns that default but eagerly persists it (both
rows written, the cache set) and broadcasts a state message to every
registered connection; the non-upgrade snapshot request resolves the state
and therefore performs the same first-access persistence. -/
theorem state_read_default_resolution :
    ∀ (env : SendEnv) (a : Agent), a.cache = Option.none →
      a.store STATE_WAS_CHANGED = Option.none →
      ((a.initial = Option.none → Agent.state env a = ⟨a, [], .ok (.val PyVal.none)⟩) ∧
       (∀ d sj, a.initial = some d → dumpsVal d = .ok sj →
         (∀ c ∈ a.conns, env c = Option.none) →
         (Agent.state env a).out = .ok (.val d) ∧
         (Agent.state env a).agent.cache = some d ∧
         (Agent.state env a).agent.store STATE_ROW_ID = some sj ∧
         (Agent.state env a).agent.store STATE_WAS_CHANGED = some "true" ∧
         ∃ m, dumpsVal (.dict [("type", .str CF_AGENT_STATE), ("state", d)]) = .ok m ∧
           (Agent.state env a).sends = a.conns.map (fun c => (c, m))) ∧
       (∀ d sj, a.initial = some d → dumpsVal d = .ok sj →
         (∀ c ∈ a.conns, env c = Option.none) →
         (Agent.fetch_http env a).agent.store STATE_ROW_ID = some sj)) := by
  intro env a hc hm
  refine ⟨?_, ?_, ?_⟩
  · intro hi
    simp only [Agent.state, hc, hm, hi]
  · intro d sj hi hd henv
    obtain ⟨hout, hcache, hstore, m, hmm, hsends⟩ :=
      state_resolves_default env a d sj hc hm hi hd henv
    refine ⟨hout, hcache, ?_, ?_, m, hmm, hsends⟩
    · rw [hstore, upsertRow_other _ STATE_WAS_CHANGED "true" STATE_ROW_ID (by decide),
        upsertRow_self]
    · rw [hstore, upsertRow_self]
  · intro d sj hi hd henv
    obtain ⟨hout, hcache, hstore, m, hmm, hsends⟩ :=
      state_resolves_default env a d sj hc hm hi hd henv
    simp only [Agent.fetch_http, hout]
    cases hb : dumpsVal (.dict [("agent", .str (camel_to_kebab a.typeName)), ("state", d)]) with
    | error e =>
      rw [hstore, upsertRow_other _ STATE_WAS_CHANGED "true" STATE_ROW_ID (by decide),
        upsertRow_self]
    | ok body =>
      rw [hstore, upsertRow_other _ STATE_WAS_CHANGED "true" STATE_ROW_ID (by decide),
        upsertRow_self]

theorem state_read_default_resolution_witness :
    ((counterAgent (some (.int 0)) Option.none emptyStore [3]).cache = Option.none ∧
      (counterAgent (some (.int 0)) Option.none emptyStore [3]).store STATE_WAS_CHANGED
        = Option.none ∧
      dumpsVal (.int 0) = .ok "0") ∧
    ((Agent.state envReliable (counterAgent (some (.int 0)) Option.none emptyStore [3])).out
        = .ok (.val (.int 0)) ∧
      (Agent.state envReliable (counterAgent (some (.int 0)) Option.none emptyStore [3])).agent.cache = some (.int 0) ∧
      (Agent.state envReliable (counterAgent (some (.int 0)) Option.none emptyStore [3])).agent.store STATE_ROW_ID = some "0" ∧
      (Agent.state envReliable (counterAgent (some (.int 0)) Option.none emptyStore [3])).agent.store STATE_WAS_CHANGED = some "true" ∧
      ∃ m, dumpsVal (.dict [("type", .str CF_AGENT_STATE), ("state", .int 0)]) = .ok m ∧
        (Agent.state envReliable (counterAgent (some (.int 0)) Option.none emptyStore [3])).sends = (counterAgent (some (.int 0)) Option.none emptyStore [3]).conns.map
            (fun c => (c, m))) :=
  ⟨⟨rfl, rfl, rfl⟩,
    (state_read_default_resolution envReliable
      (counterAgent (some (.int 0)) Option.none emptyStore [3]) rfl rfl).2.1
      (.int 0) "0" rfl rfl (fun _ _ => rfl)⟩

/-- C5, counterexample: with the changed marker set, a corrupted current row
(`"x"` does not deserialize), a configured default and one registered
connection whose send raises, the next state read DOES raise to the caller —
the exception from the re-persist broadcast escapes the `state` property. -/
theorem corrupt_state_read_raises_cex :
    loads "x" = Option.none ∧
    corruptStore STATE_WAS_CHANGED = some "true" ∧
    corruptStore STATE_ROW_ID = some "x" ∧
    (Agent.state envFail1 (counterAgent (some (.int 0)) Option.none corruptStore [1])).out
      = .error "boom" :=
  ⟨rfl, rfl, rfl, rfl⟩

/-- C5 (amended): with the changed marker present and a current row whose
payload fails to deserialize, the next state read deletes both rows and
returns `None` (without raising and without touching the cache) when no
default is configured; when a serializable default is configured and the
re-persist broadcast's sends succeed, it re-persists the default (both rows,
cache, broadcast to all connections) and returns it. It can raise only when
that re-persist itself fails (non-serializable default or raising send). -/
theorem corrupt_state_read_recovery :
    ∀ (env : SendEnv) (a : Agent) (payload : String),
      a.cache = Option.none →
      a.store STATE_WAS_CHANGED = some "true" →
      a.store STATE_ROW_ID = some payload →
      loads payload = Option.none →
      ((a.initial = Option.none →
         (Agent.state env a).out = .ok (.val PyVal.none) ∧
         (Agent.state env a).agent.cache = Option.none ∧
         (Agent.state env a).agent.store STATE_ROW_ID = Option.none ∧
         (Agent.state env a).agent.store STATE_WAS_CHANGED = Option.none ∧
         (Agent.state env a).sends = []) ∧
       (∀ d sj, a.initial = some d → dumpsVal d = .ok sj →
         (∀ c ∈ a.conns, env c = Option.none) →
         (Agent.state env a).out = .ok (.val d) ∧
         (Agent.state env a).agent.cache = some d ∧
         (Agent.state env a).agent.store STATE_ROW_ID = some sj ∧
         (Agent.state env a).agent.store STATE_WAS_CHANGED = some "true" ∧
         ∃ m, dumpsVal (.dict [("type", .str CF_AGENT_STATE), ("state", d)]) = .ok m ∧
           (Agent.state env a).sends = a.conns.map (fun c => (c, m)))) := by
  intro env a payload hc hmk hrow hload
  constructor
  · intro hi
    refine ⟨?_, ?_, ?_, ?_, ?_⟩ <;>
      simp only [Agent.state, hc, hmk, hrow, hload, hi] <;>
      first
        | exact hc
        | exact (deleteRow_other _ STATE_WAS_CHANGED STATE_ROW_ID (by decide)).trans
            (deleteRow_self a.store STATE_ROW_ID)
  · intro d sj hi hd henv
    obtain ⟨m, hmm, hcache, hstore, hconns, hinit, hsends, hout⟩ :=
      set_state_internal_ok env ⟨a.typeName, a.name, some d, some d, a.store, a.conns⟩ d
        Option.none sj hd (fun c hcmem _ => henv c hcmem)
    rw [filter_no_src] at hsends
    refine ⟨?_, ?_, ?_, ?_, m, hmm, ?_⟩ <;>
      simp only [Agent.state, hc, hmk, hrow, hload, hi, hout] <;>
      first
        | (rw [hcache])
        | (rw [hstore, upsertRow_other _ STATE_WAS_CHANGED "true" STATE_ROW_ID (by decide),
            upsertRow_self])
        | (rw [hstore, upsertRow_self])
        | exact hsends

theorem corrupt_state_read_recovery_witness :
    ((counterAgent Option.none Option.none corruptStore []).cache = Option.none ∧
      corruptStore STATE_WAS_CHANGED = some "true" ∧
      corruptStore STATE_ROW_ID = some "x" ∧
      loads "x" = Option.none) ∧
    ((Agent.state envReliable (counterAgent Option.none Option.none corruptStore [])).out
        = .ok (.val PyVal.none) ∧
      (Agent.state envReliable (counterAgent Option.none Option.none corruptStore [])).agent.cache = Option.none ∧
      (Agent.state envReliable (counterAgent Option.none Option.none corruptStore [])).agent.store STATE_ROW_ID = Option.none ∧
      (Agent.state envReliable (counterAgent Option.none Option.none corruptStore [])).agent.store STATE_WAS_CHANGED = Option.none ∧
      (Agent.state envReliable (counterAgent Option.none Option.none corruptStore [])).sends
        = []) :=
  ⟨⟨rfl, rfl, rfl, rfl⟩,
    (corrupt_state_read_recovery envReliable
      (counterAgent Option.none Option.none corruptStore []) "x" rfl rfl rfl rfl).1 rfl⟩

/-- True exactly when the resolved value compares `is not None`. -/
theorem isNotNone_of_ne (v : PyVal) (h : ¬ v = PyVal.none) : isNotNone (.val v) = true := by
  cases v <;> first | exact absurd rfl h | rfl

/-- C4, counterexample: for an identity whose persisted state is JSON `null`
(changed marker set), opening a connection sends the identity message only —
no state message follows, because the code checks `current is not None` and
a persisted `null` resolves to `None`, indistinguishable from unset. -/
theorem on_open_persisted_null_not_sent_cex :
    nullStore STATE_WAS_CHANGED = some "true" ∧
    nullStore STATE_ROW_ID = some "null" ∧
    loads "null" = some PyVal.none ∧
    (Agent.fetch_ws envReliable (counterAgent Option.none Option.none nullStore []) 5).sends
      = [(5, "\x7b\"type\": \"cf_agent_identity\", \"name\": \"n\", \"agent\": \"counter-agent\"\x7d")] ∧
    (Agent.fetch_ws envReliable (counterAgent Option.none Option.none nullStore []) 5).out
      = .ok () ∧
    (Agent.fetch_ws envReliable (counterAgent Option.none Option.none nullStore []) 5).agent.cache = some PyVal.none :=
  ⟨rfl, rfl, rfl, rfl, rfl, rfl⟩

/-- C4 (amended): on every connection open the agent first sends exactly one
identity message `{type, name, agent: kebab-cased type name}` to the new
connection only, and then sends a state message to that connection iff the
resolved state is not `None` — an explicitly persisted `null` state is NOT
sent, the `is not None` check conflating it with unset. -/
theorem on_open_identity_then_state :
    ∀ (env : SendEnv) (a : Agent) (c : Nat), env c = Option.none →
      ∀ cur, (Agent.state env { a with conns := a.conns ++ [c] }).out = .ok (.val cur) →
      ∃ idm, dumpsVal (.dict [("type", .str CF_AGENT_IDENTITY), ("name", .str a.name),
          ("agent", .str (camel_to_kebab a.typeName))]) = .ok idm ∧
        ((cur = PyVal.none →
           (Agent.fetch_ws env a c).sends =
             (c, idm) :: (Agent.state env { a with conns := a.conns ++ [c] }).sends ∧
           (Agent.fetch_ws env a c).out = .ok ()) ∧
         (∀ sj, ¬ cur = PyVal.none → dumpsVal cur = .ok sj →
           ∃ m, dumpsVal (.dict [("type", .str CF_AGENT_STATE), ("state", cur)]) = .ok m ∧
             (Agent.fetch_ws env a c).sends =
               ((c, idm) :: (Agent.state env { a with conns := a.conns ++ [c] }).sends)
                 ++ [(c, m)] ∧
             (Agent.fetch_ws env a c).out = .ok ())) := by
  intro env a c henvc cur hout
  obtain ⟨idm, hidm⟩ : ∃ idm, dumpsVal (.dict [("type", .str CF_AGENT_IDENTITY),
      ("name", .str a.name), ("agent", .str (camel_to_kebab a.typeName))]) = .ok idm := by
    refine dumpsDict_ok_of _ ?_
    intro p hp
    rcases List.mem_cons.1 hp with hp | hp
    · exact ⟨_, by rw [hp]; rfl⟩
    · rcases List.mem_cons.1 hp with hp | hp
      · exact ⟨_, by rw [hp]; rfl⟩
      · rcases List.mem_cons.1 hp with hp | hp
        · exact ⟨_, by rw [hp]; rfl⟩
        · cases hp
  refine ⟨idm, hidm, ?_, ?_⟩
  · intro hnone
    subst hnone
    constructor <;>
      simp only [Agent.fetch_ws, identityDict, hidm, henvc, hout, isNotNone,
        Bool.false_eq_true, if_false]
  · intro sj hne hsj
    obtain ⟨m, hm⟩ := stateDict_ok cur sj hsj
    refine ⟨m, hm, ?_, ?_⟩ <;>
      simp only [Agent.fetch_ws, identityDict, stateMsgOf, hidm, henvc, hout,
        isNotNone_of_ne cur hne, if_true, hm]

theorem on_open_identity_then_state_witness :
    (envReliable 5 = Option.none ∧
      (Agent.state envReliable { counterAgent Option.none Option.none nullStore [] with
        conns := (counterAgent Option.none Option.none nullStore []).conns ++ [5] }).out
        = .ok (.val PyVal.none)) ∧
    (∃ idm, dumpsVal (.dict [("type", .str CF_AGENT_IDENTITY), ("name", .str "n"),
        ("agent", .str (camel_to_kebab "CounterAgent"))]) = .ok idm ∧
      ((PyVal.none = PyVal.none →
         (Agent.fetch_ws envReliable (counterAgent Option.none Option.none nullStore []) 5).sends
           = (5, idm) :: (Agent.state envReliable
              { counterAgent Option.none Option.none nullStore [] with
                conns := (counterAgent Option.none Option.none nullStore []).conns ++ [5] }).sends ∧
         (Agent.fetch_ws envReliable (counterAgent Option.none Option.none nullStore []) 5).out
           = .ok ()) ∧
       (∀ sj, ¬ PyVal.none = PyVal.none → dumpsVal PyVal.none = .ok sj →
         ∃ m, dumpsVal (.dict [("type", .str CF_AGENT_STATE), ("state", PyVal.none)]) = .ok m ∧
           (Agent.fetch_ws envReliable (counterAgent Option.none Option.none nullStore []) 5).sends
             = ((5, idm) :: (Agent.state envReliable
                { counterAgent Option.none Option.none nullStore [] with
                  conns := (counterAgent Option.none Option.none nullStore []).conns ++ [5] }).sends)
               ++ [(5, m)] ∧
           (Agent.fetch_ws envReliable (counterAgent Option.none Option.none nullStore []) 5).out
             = .ok ()))) :=
  ⟨⟨rfl, rfl⟩,
    on_open_identity_then_state envReliable (counterAgent Option.none Option.none nullStore [])
      5 rfl PyVal.none rfl⟩

/-- C7: dispatching an RPC request whose method name is not registered as a
callable capability (anything outside the underscore-filtered capability
registry) answers the requesting connection only with
`{type: rpc, id: <request id>, success: false, error: "Method <name> is not
callable"}` and leaves the agent (cache, rows, registry) unchanged. -/
theorem rpc_unknown_method_not_callable :
    ∀ (env : SendEnv) (methods : List (String × Handler)) (a : Agent) (ws : Nat)
      (kvs : List (String × PyVal)) (nm : String) (rid : PyVal) (rjs : String),
      pyGet kvs "method" = some (.str nm) →
      (Agent.callables methods).find? (fun p => p.1 = nm) = Option.none →
      pyGet kvs "id" = some rid →
      dumpsVal rid = .ok rjs →
      env ws = Option.none →
      (Agent.handle_rpc env methods a ws kvs).agent = a ∧
      ∃ m, dumpsVal (.dict [("type", .str RPC), ("id", rid), ("success", .bool false),
            ("error", .str ("Method " ++ nm ++ " is not callable"))]) = .ok m ∧
        (Agent.handle_rpc env methods a ws kvs).sends = [(ws, m)] ∧
        (Agent.handle_rpc env methods a ws kvs).out = .ok () := by
  intro env methods a ws kvs nm rid rjs hmeth hfind hid hrj henv
  obtain ⟨m, hmm⟩ : ∃ m, dumpsVal (.dict [("type", .str RPC), ("id", rid),
      ("success", .bool false), ("error", .str ("Method " ++ nm ++ " is not callable"))])
        = .ok m := by
    refine dumpsDict_ok_of _ ?_
    intro p hp
    rcases List.mem_cons.1 hp with hp | hp
    · exact ⟨_, by rw [hp]; rfl⟩
    · rcases List.mem_cons.1 hp with hp | hp
      · exact ⟨rjs, by rw [hp]; exact hrj⟩
      · rcases List.mem_cons.1 hp with hp | hp
        · exact ⟨_, by rw [hp]; rfl⟩
        · rcases List.mem_cons.1 hp with hp | hp
          · exact ⟨_, by rw [hp]; rfl⟩
          · cases hp
  refine ⟨?_, m, hmm, ?_, ?_⟩ <;>
    simp only [Agent.handle_rpc, hmeth, hid, Option.getD_some, Option.bind_eq_bind,
      Option.some_bind, hfind, pyStr, hmm, henv, List.nil_append]

theorem rpc_unknown_method_not_callable_witness :
    (pyGet [("type", PyVal.str "rpc"), ("id", PyVal.str "2"), ("method", PyVal.str "nope"),
        ("args", PyVal.list [])] "method" = some (.str "nope") ∧
      (Agent.callables demoMethods).find? (fun p => p.1 = "nope") = Option.none ∧
      pyGet [("type", PyVal.str "rpc"), ("id", PyVal.str "2"), ("method", PyVal.str "nope"),
        ("args", PyVal.list [])] "id" = some (.str "2") ∧
      dumpsVal (.str "2") = .ok "\"2\"") ∧
    ((Agent.handle_rpc envReliable demoMethods
        (counterAgent Option.none (some (.int 1)) emptyStore [4]) 4
        [("type", PyVal.str "rpc"), ("id", PyVal.str "2"), ("method", PyVal.str "nope"),
          ("args", PyVal.list [])]).agent
        = counterAgent Option.none (some (.int 1)) emptyStore [4] ∧
      ∃ m, dumpsVal (.dict [("type", .str RPC), ("id", .str "2"), ("success", .bool false),
            ("error", .str ("Method " ++ "nope" ++ " is not callable"))]) = .ok m ∧
        (Agent.handle_rpc envReliable demoMethods
          (counterAgent Option.none (some (.int 1)) emptyStore [4]) 4
          [("type", PyVal.str "rpc"), ("id", PyVal.str "2"), ("method", PyVal.str "nope"),
            ("args", PyVal.list [])]).sends = [(4, m)] ∧
        (Agent.handle_rpc envReliable demoMethods
          (counterAgent Option.none (some (.int 1)) emptyStore [4]) 4
          [("type", PyVal.str "rpc"), ("id", PyVal.str "2"), ("method", PyVal.str "nope"),
            ("args", PyVal.list [])]).out = .ok ()) :=
  ⟨⟨rfl, rfl, rfl, rfl⟩,
    rpc_unknown_method_not_callable envReliable demoMethods
      (counterAgent Option.none (some (.int 1)) emptyStore [4]) 4
      [("type", PyVal.str "rpc"), ("id", PyVal.str "2"), ("method", PyVal.str "nope"),
        ("args", PyVal.list [])] "nope" (.str "2") "\"2\"" rfl rfl rfl rfl rfl⟩

/-- C8: dispatching a registered capability invokes its handler with the
request's `args` unpacked positionally; a normal, serializable return is
answered `{type: rpc, id, success: true, result}` and a raising handler is
answered `{type: rpc, id, success: false, error: <description>}` — in both
cases the call returns normally (nothing escapes to crash the actor or close
a connection), the request id is copied verbatim into the response, and the
response is sent to the requesting connection only (after whatever sends the
handler itself performed). -/
theorem rpc_registered_method_dispatch :
    ∀ (env : SendEnv) (methods : List (String × Handler)) (a : Agent) (ws : Nat)
      (kvs : List (String × PyVal)) (nm : String) (h : Handler) (rid : PyVal) (rjs : String)
      (args : List PyVal),
      pyGet kvs "method" = some (.str nm) →
      (Agent.callables methods).find? (fun p => p.1 = nm) = some (nm, h) →
      pyGet kvs "id" = some rid →
      dumpsVal rid = .ok rjs →
      pyGet kvs "args" = some (.list args) →
      env ws = Option.none →
      ((∀ (a2 : Agent) (hs : List (Nat × String)) (v : PyVal) (vj : String),
         h env args a = (a2, hs, .ok v) → dumpsVal v = .ok vj →
         (Agent.handle_rpc env methods a ws kvs).agent = a2 ∧
         ∃ m, dumpsVal (.dict [("type", .str RPC), ("id", rid), ("success", .bool true),
               ("result", v)]) = .ok m ∧
           (Agent.handle_rpc env methods a ws kvs).sends = hs ++ [(ws, m)] ∧
           (Agent.handle_rpc env methods a ws kvs).out = .ok ()) ∧
       (∀ (a2 : Agent) (hs : List (Nat × String)) (e : String),
         h env args a = (a2, hs, .error e) →
         (Agent.handle_rpc env methods a ws kvs).agent = a2 ∧
         ∃ m, dumpsVal (.dict [("type", .str RPC), ("id", rid), ("success", .bool false),
               ("error", .str e)]) = .ok m ∧
           (Agent.handle_rpc env methods a ws kvs).sends = hs ++ [(ws, m)] ∧
           (Agent.handle_rpc env methods a ws kvs).out = .ok ())) := by
  intro env methods a ws kvs nm h rid rjs args hmeth hfind hid hrj hargs henv
  constructor
  · intro a2 hs v vj hrun hv
    obtain ⟨m, hmm⟩ : ∃ m, dumpsVal (.dict [("type", .str RPC), ("id", rid),
        ("success", .bool true), ("result", v)]) = .ok m := by
      refine dumpsDict_ok_of _ ?_
      intro p hp
      rcases List.mem_cons.1 hp with hp | hp
      · exact ⟨_, by rw [hp]; rfl⟩
      · rcases List.mem_cons.1 hp with hp | hp
        · exact ⟨rjs, by rw [hp]; exact hrj⟩
        · rcases List.mem_cons.1 hp with hp | hp
          · exact ⟨_, by rw [hp]; rfl⟩
          · rcases List.mem_cons.1 hp with hp | hp
            · exact ⟨vj, by rw [hp]; exact hv⟩
            · cases hp
    refine ⟨?_, m, hmm, ?_, ?_⟩ <;>
      simp only [Agent.handle_rpc, hmeth, hid, hargs, Option.getD_some, Option.bind_eq_bind,
        Option.some_bind, hfind, starArgs, hrun, hmm, henv]
  · intro a2 hs e hrun
    obtain ⟨m, hmm⟩ : ∃ m, dumpsVal (.dict [("type", .str RPC), ("id", rid),
        ("success", .bool false), ("error", .str e)]) = .ok m := by
      refine dumpsDict_ok_of _ ?_
      intro p hp
      rcases List.mem_cons.1 hp with hp | hp
      · exact ⟨_, by rw [hp]; rfl⟩
      · rcases List.mem_cons.1 hp with hp | hp
        · exact ⟨rjs, by rw [hp]; exact hrj⟩
        · rcases List.mem_cons.1 hp with hp | hp
          · exact ⟨_, by rw [hp]; rfl⟩
          · rcases List.mem_cons.1 hp with hp | hp
            · exact ⟨_, by rw [hp]; rfl⟩
            · cases hp
    refine ⟨?_, m, hmm, ?_, ?_⟩ <;>
      simp only [Agent.handle_rpc, hmeth, hid, hargs, Option.getD_some, Option.bind_eq_bind,
        Option.some_bind, hfind, starArgs, hrun, hmm, henv]

theorem rpc_registered_method_dispatch_witness :
    (pyGet [("type", PyVal.str "rpc"), ("id", PyVal.str "1"), ("method", PyVal.str "inc"),
        ("args", PyVal.list [PyVal.int 5])] "method" = some (.str "inc") ∧
      (Agent.callables demoMethods).find? (fun p => p.1 = "inc") = some ("inc", incHandler) ∧
      incHandler envReliable [PyVal.int 5] (counterAgent Option.none (some (.int 1)) emptyStore [4])
        = (counterAgent Option.none (some (.int 1)) emptyStore [4], [], .ok (.int 6)) ∧
      dumpsVal (.int 6) = .ok "6") ∧
    ((Agent.handle_rpc envReliable demoMethods
        (counterAgent Option.none (some (.int 1)) emptyStore [4]) 4
        [("type", PyVal.str "rpc"), ("id", PyVal.str "1"), ("method", PyVal.str "inc"),
          ("args", PyVal.list [PyVal.int 5])]).agent
        = counterAgent Option.none (some (.int 1)) emptyStore [4] ∧
      ∃ m, dumpsVal (.dict [("type", .str RPC), ("id", .str "1"), ("success", .bool true),
            ("result", .int 6)]) = .ok m ∧
        (Agent.handle_rpc envReliable demoMethods
          (counterAgent Option.none (some (.int 1)) emptyStore [4]) 4
          [("type", PyVal.str "rpc"), ("id", PyVal.str "1"), ("method", PyVal.str "inc"),
            ("args", PyVal.list [PyVal.int 5])]).sends = [] ++ [(4, m)] ∧
        (Agent.handle_rpc envReliable demoMethods
          (counterAgent Option.none (some (.int 1)) emptyStore [4]) 4
          [("type", PyVal.str "rpc"), ("id", PyVal.str "1"), ("method", PyVal.str "inc"),
            ("args", PyVal.list [PyVal.int 5])]).out = .ok ()) :=
  ⟨⟨rfl, rfl, rfl, rfl⟩,
    (rpc_registered_method_dispatch envReliable demoMethods
      (counterAgent Option.none (some (.int 1)) emptyStore [4]) 4
      [("type", PyVal.str "rpc"), ("id", PyVal.str "1"), ("method", PyVal.str "inc"),
        ("args", PyVal.list [PyVal.int 5])] "inc" incHandler (.str "1") "\"1\""
      [PyVal.int 5] rfl rfl rfl rfl rfl rfl).1
      (counterAgent Option.none (some (.int 1)) emptyStore [4]) [] (.int 6) "6" rfl rfl⟩

/-- C9: a state push received from connection `c1` that the agent can
deliver (every other registered connection accepts its send) results in the
state message being sent to exactly the registered connections other than
`c1`, in registration order — `c1` itself, identity-compared, never receives
its own echo — and the handler returns normally. -/
theorem state_push_broadcast_excludes_sender :
    ∀ (env : SendEnv) (methods : List (String × Handler)) (a : Agent) (c1 : Nat)
      (msg : String) (kvs : List (String × PyVal)),
      loads msg = some (.dict kvs) →
      pyGet kvs "type" = some (.str CF_AGENT_STATE) →
      (∀ c ∈ a.conns, ¬ c = c1 → env c = Option.none) →
      ∃ m, dumpsVal (.dict [("type", .str CF_AGENT_STATE),
              ("state", (pyGet kvs "state").getD PyVal.none)]) = .ok m ∧
        (Agent.webSocketMessage env methods a c1 msg).sends =
          (a.conns.filter (fun c => ¬ (some c1 : Option Nat) = some c)).map (fun c => (c, m)) ∧
        (∀ p ∈ (Agent.webSocketMessage env methods a c1 msg).sends, ¬ p.1 = c1) ∧
        (Agent.webSocketMessage env methods a c1 msg).out = .ok () := by
  intro env methods a c1 msg kvs hloads hty henv
  obtain ⟨sj, hsj⟩ := loads_state_field_serializable msg kvs hloads
  obtain ⟨m, hmm, hcache, hstore, hconns, hinit, hsends, hout⟩ :=
    set_state_internal_ok env a ((pyGet kvs "state").getD PyVal.none) (some c1) sj hsj
      (fun c hc hne => henv c hc (fun hcc => hne (by rw [hcc])))
  have heq : Agent.webSocketMessage env methods a c1 msg =
      ⟨(Agent.set_state_internal env a ((pyGet kvs "state").getD PyVal.none) (some c1)).agent,
        (a.conns.filter (fun c => ¬ (some c1 : Option Nat) = some c)).map (fun c => (c, m)),
        .ok ()⟩ := by
    simp only [Agent.webSocketMessage, hloads, hty, hout, hsends]
    simp
  refine ⟨m, hmm, ?_, ?_, ?_⟩
  · rw [heq]
  · rw [heq]
    intro p hp
    obtain ⟨c, hcmem, hpc⟩ := List.mem_map.1 hp
    have hne : ¬ (some c1 : Option Nat) = some c :=
      of_decide_eq_true (List.mem_filter.1 hcmem).2
    intro hpc1
    rw [← hpc] at hpc1
    exact hne (by rw [show c = c1 from hpc1])
  · rw [heq]

theorem state_push_broadcast_excludes_sender_witness :
    (loads "\x7b\"type\": \"cf_agent_state\", \"state\": 7\x7d"
        = some (.dict [("type", PyVal.str "cf_agent_state"), ("state", PyVal.int 7)]) ∧
      pyGet [("type", PyVal.str "cf_agent_state"), ("state", PyVal.int 7)] "type"
        = some (.str CF_AGENT_STATE)) ∧
    (∃ m, dumpsVal (.dict [("type", .str CF_AGENT_STATE),
            ("state", (pyGet [("type", PyVal.str "cf_agent_state"), ("state", PyVal.int 7)]
              "state").getD PyVal.none)]) = .ok m ∧
      (Agent.webSocketMessage envReliable demoMethods
          (counterAgent Option.none Option.none emptyStore [1, 2, 3]) 1
          "\x7b\"type\": \"cf_agent_state\", \"state\": 7\x7d").sends =
        ((counterAgent Option.none Option.none emptyStore [1, 2, 3]).conns.filter
          (fun c => ¬ (some 1 : Option Nat) = some c)).map (fun c => (c, m)) ∧
      (∀ p ∈ (Agent.webSocketMessage envReliable demoMethods
          (counterAgent Option.none Option.none emptyStore [1, 2, 3]) 1
          "\x7b\"type\": \"cf_agent_state\", \"state\": 7\x7d").sends, ¬ p.1 = 1) ∧
      (Agent.webSocketMessage envReliable demoMethods
          (counterAgent Option.none Option.none emptyStore [1, 2, 3]) 1
          "\x7b\"type\": \"cf_agent_state\", \"state\": 7\x7d").out = .ok ()) :=
  ⟨⟨rfl, rfl⟩,
    state_push_broadcast_excludes_sender envReliable demoMethods
      (counterAgent Option.none Option.none emptyStore [1, 2, 3]) 1
      "\x7b\"type\": \"cf_agent_state\", \"state\": 7\x7d"
      [("type", PyVal.str "cf_agent_state"), ("state", PyVal.int 7)] rfl rfl
      (fun _ _ _ => rfl)⟩

theorem set_state_internal_error_shape (env : SendEnv) (a : Agent) (st : PyVal)
    (src : Option Nat) (e : String) (h : dumpsVal st = .error e) :
    Agent.set_state_internal env a st src = ⟨{ a with cache := some st }, [], .error e⟩ := by
  simp only [Agent.set_state_internal, h]

/-- The write path `_set_state_internal` preserves the paired-rows property: either the
serialization fails and the rows are untouched, or both rows are upserted. -/
theorem set_state_internal_paired (env : SendEnv) (a : Agent) (st : PyVal) (src : Option Nat)
    (h : pairedStore a.store) :
    pairedStore (Agent.set_state_internal env a st src).agent.store := by
  cases hd : dumpsVal st with
  | error e => rw [set_state_internal_error_shape env a st src e hd]; exact h
  | ok sj =>
    obtain ⟨hrow, hwas, -, -⟩ := set_state_internal_store_update env a st src sj hd
    unfold pairedStore
    rw [hrow, hwas]
    simp

/-- The `state` property preserves the paired-rows property in every branch:
reads leave the rows alone, the recovery path deletes both, and every
re-persist writes both. -/
theorem state_paired (env : SendEnv) (a : Agent) (h : pairedStore a.store) :
    pairedStore (Agent.state env a).agent.store := by
  rw [Agent.state]
  dsimp only
  repeat' split
  all_goals first
    | exact h
    | exact set_state_internal_paired env _ _ _ h
    | (unfold pairedStore
       dsimp only
       rw [(deleteRow_other _ STATE_WAS_CHANGED STATE_ROW_ID (by decide)).trans
           (deleteRow_self a.store STATE_ROW_ID),
         deleteRow_self (deleteRow a.store STATE_ROW_ID) STATE_WAS_CHANGED])

/-- RPC dispatch preserves the paired-rows property provided every registered
handler does: the dispatcher itself only sends, and otherwise keeps whatever
agent the handler returned. -/
theorem handle_rpc_paired (env : SendEnv) (methods : List (String × Handler)) (a : Agent)
    (ws : Nat) (kvs : List (String × PyVal))
    (hh : ∀ nm h, (nm, h) ∈ methods → ∀ env2 args a2, pairedStore a2.store →
      pairedStore (h env2 args a2).1.store)
    (hp : pairedStore a.store) :
    pairedStore (Agent.handle_rpc env methods a ws kvs).agent.store := by
  rw [Agent.handle_rpc]
  dsimp only
  cases hmv : (pyGet kvs "method").getD PyVal.none
  case str nm =>
    dsimp only
    cases hfind : (Agent.callables methods).find? (fun p => p.1 = nm)
    case none =>
      dsimp only
      repeat' split
      all_goals exact hp
    case some ph =>
      obtain ⟨nm2, h2⟩ := ph
      have hmem := List.mem_of_mem_filter (List.mem_of_find?_eq_some hfind)
      dsimp only
      cases hargs : starArgs ((pyGet kvs "args").getD (.list []))
      case error e =>
        dsimp only
        repeat' split
        all_goals exact hp
      case ok args =>
        have hph := hh nm2 h2 hmem env args a hp
        dsimp only
        cases hrun : h2 env args a
        case mk a2 hsres =>
          rw [hrun] at hph
          obtain ⟨hs, res⟩ := hsres
          cases res
          all_goals
            (try dsimp only
             repeat' split
             all_goals exact hph)
  all_goals
    (try dsimp only
     repeat' split
     all_goals exact hp)

/-- The message handler `webSocketMessage` preserves the paired-rows property provided every
registered handler does. -/
theorem webSocketMessage_paired (env : SendEnv) (methods : List (String × Handler))
    (a : Agent) (ws : Nat) (msg : String)
    (hh : ∀ nm h, (nm, h) ∈ methods → ∀ env2 args a2, pairedStore a2.store →
      pairedStore (h env2 args a2).1.store)
    (hp : pairedStore a.store) :
    pairedStore (Agent.webSocketMessage env methods a ws msg).agent.store := by
  rw [Agent.webSocketMessage]
  dsimp only
  cases hl : loads msg
  case none => exact hp
  case some parsed =>
    cases parsed
    case dict kvs =>
      dsimp only
      split_ifs
      · have hsp := set_state_internal_paired env a ((pyGet kvs "state").getD PyVal.none)
          (some ws) hp
        repeat' split
        all_goals exact hsp
      · exact handle_rpc_paired env methods a ws kvs hh hp
      · exact hp
    all_goals exact hp

/-- The WebSocket-upgrade `fetch` branch preserves the paired-rows property
(its only Store interaction is the state resolution). -/
theorem fetch_ws_paired (env : SendEnv) (a : Agent) (server : Nat)
    (hp : pairedStore a.store) :
    pairedStore (Agent.fetch_ws env a server).agent.store := by
  rw [Agent.fetch_ws]
  dsimp only
  have hsp := state_paired env { a with conns := a.conns ++ [server] } hp
  repeat' split
  all_goals first | exact hp | exact hsp

/-- The non-upgrade `fetch` branch preserves the paired-rows property. -/
theorem fetch_http_paired (env : SendEnv) (a : Agent) (hp : pairedStore a.store) :
    pairedStore (Agent.fetch_http env a).agent.store := by
  rw [Agent.fetch_http]
  dsimp only
  have hsp := state_paired env a hp
  repeat' split
  all_goals first | exact hp | exact hsp

/-- C10: the paired-rows invariant. The fresh table satisfies it; every agent
operation — a state read (including its corruption-recovery deletions and
re-persist), a state write, any WebSocket message (assuming the type's
handlers preserve it, since a handler is arbitrary subclass code), and both
`fetch` branches — preserves it; and immediately after a successful write the
current row holds exactly the serialization of the in-memory cached state. -/
theorem paired_rows_invariant :
    pairedStore emptyStore ∧
    (∀ (env : SendEnv) (a : Agent) (st : PyVal) (src : Option Nat), pairedStore a.store →
      pairedStore (Agent.set_state_internal env a st src).agent.store) ∧
    (∀ (env : SendEnv) (a : Agent), pairedStore a.store →
      pairedStore (Agent.state env a).agent.store) ∧
    (∀ (env : SendEnv) (methods : List (String × Handler)) (a : Agent) (ws : Nat)
       (msg : String),
      (∀ nm h, (nm, h) ∈ methods → ∀ env2 args a2, pairedStore a2.store →
        pairedStore (h env2 args a2).1.store) →
      pairedStore a.store →
      pairedStore (Agent.webSocketMessage env methods a ws msg).agent.store) ∧
    (∀ (env : SendEnv) (a : Agent) (server : Nat), pairedStore a.store →
      pairedStore (Agent.fetch_ws env a server).agent.store) ∧
    (∀ (env : SendEnv) (a : Agent), pairedStore a.store →
      pairedStore (Agent.fetch_http env a).agent.store) ∧
    (∀ (env : SendEnv) (a : Agent) (st : PyVal) (src : Option Nat) (sj : String),
      dumpsVal st = .ok sj →
      (Agent.set_state_internal env a st src).agent.store STATE_ROW_ID = some sj ∧
      (Agent.set_state_internal env a st src).agent.cache = some st) :=
  ⟨Iff.rfl,
    fun env a st src hp => set_state_internal_paired env a st src hp,
    fun env a hp => state_paired env a hp,
    fun env methods a ws msg hh hp => webSocketMessage_paired env methods a ws msg hh hp,
    fun env a server hp => fetch_ws_paired env a server hp,
    fun env a hp => fetch_http_paired env a hp,
    fun env a st src sj hd =>
      ⟨(set_state_internal_store_update env a st src sj hd).1,
        (set_state_internal_store_update env a st src sj hd).2.2.1⟩⟩

theorem paired_rows_invariant_witness :
    pairedStore (counterAgent (some (.int 0)) Option.none emptyStore []).store ∧
    pairedStore (Agent.state envReliable
      (counterAgent (some (.int 0)) Option.none emptyStore [])).agent.store ∧
    dumpsVal (.int 7) = .ok "7" ∧
    (Agent.set_state_internal envReliable (counterAgent (some (.int 0)) Option.none emptyStore [])
        (.int 7) Option.none).agent.store STATE_ROW_ID = some "7" ∧
    (Agent.set_state_internal envReliable (counterAgent (some (.int 0)) Option.none emptyStore [])
        (.int 7) Option.none).agent.cache = some (.int 7) :=
  ⟨Iff.rfl,
    paired_rows_invariant.2.2.1 envReliable
      (counterAgent (some (.int 0)) Option.none emptyStore []) Iff.rfl,
    rfl,
    (paired_rows_invariant.2.2.2.2.2.2 envReliable
      (counterAgent (some (.int 0)) Option.none emptyStore []) (.int 7) Option.none "7" rfl).1,
    (paired_rows_invariant.2.2.2.2.2.2 envReliable
      (counterAgent (some (.int 0)) Option.none emptyStore []) (.int 7) Option.none "7" rfl).2⟩
